import Mathlib

/-!
Verification of the PDFtoTXT repository: a shallow embedding of
`pdf_page_text.py` (multi-engine page text extraction with OCR fallback)
and `pdf_to_image.py` (page rasterization and image-to-PDF assembly).

External collaborators (pypdf, pdfminer.six, PyMuPDF, pytesseract, Pillow,
and Unicode NFC normalization) are modelled as parameters: an environment
record holds the observable behaviour of each library call, and `nfc` is an
arbitrary function about which theorems assume only the properties the
Unicode standard guarantees (idempotence, preservation of emptiness and of
blankness).
-/

/-- Python whitespace test used by `str.strip()` / the truthiness check
`not text or not text.strip()`: ASCII whitespace, the C1 separators,
NEL, NBSP, and the Unicode space separators. -/
def isPySpace (c : Char) : Bool :=
  c = ' ' || c = '\t' || c = '\n' || c = '\r' ||
  c.val == 0x0b || c.val == 0x0c ||
  c.val == 0x1c || c.val == 0x1d || c.val == 0x1e || c.val == 0x1f ||
  c.val == 0x85 || c.val == 0xa0 || c.val == 0x1680 ||
  (0x2000 ≤ c.val && c.val ≤ 0x200a) ||
  c.val == 0x2028 || c.val == 0x2029 || c.val == 0x202f ||
  c.val == 0x205f || c.val == 0x3000

/-- Python `not text or not text.strip()`: true iff every character of the
string is whitespace (in particular, true of the empty string). -/
def pyBlank (s : String) : Bool :=
  s.data.all isPySpace

/-- Errors raised by the embedded code. Each constructor stands for one
`raise` site of the source and carries exactly the data interpolated into
the message of that site:
`outOfRange p lo hi` is the ValueError whose f-string reports the requested
page `p` and the valid range `lo-hi`;
`pageMin p` is the ValueError of the pdfminer backend reporting only the
requested page;
`invalidEngine e` is the ValueError of the orchestrator for an unknown engine
tag; `emptyInput` is the ValueError of the assembler for an empty image list;
`importError lib` is the ImportError for a missing optional dependency;
`extractionFailure` stands for any exception raised by an external library
call, logged and re-raised unchanged by the enclosing try/except. -/
inductive PyErr where
  | outOfRange (requested lo hi : Int)
  | pageMin (requested : Int)
  | invalidEngine (engine : String)
  | emptyInput
  | importError (lib : String)
  | extractionFailure
  deriving DecidableEq

/-- PyMuPDF pixmap as produced by `page.get_pixmap(matrix=mat)`: pixel
dimensions plus an abstract tag for the sample buffer. -/
structure Pixmap where
  width : Nat
  height : Nat
  samples : Nat
  deriving DecidableEq

/-- Observable behaviour of the external libraries used by
`pdf_page_text.py` for one openable document: the page count, the raw text
each backend produces per 0-based page index (`none` models the library
call raising), the three availability flags discovered at import time, and
the OCR pipeline primitives (`getPixmap` takes the 0-based page and the
`Matrix(zoom, zoom)` scale pair; `frombytes` converts a pixmap to a PIL
image token; `imageToString` runs tesseract on an image with a language
string). -/
structure PdfEnv where
  totalPages : Nat
  pypdfText : Nat → Option String
  pdfminerText : Nat → Option String
  pdfminerAvailable : Bool
  pymupdfAvailable : Bool
  pytesseractAvailable : Bool
  getPixmap : Nat → ℚ × ℚ → Option Pixmap
  frombytes : Pixmap → Option Nat
  imageToString : Nat → String → Option String

/-- Shared tail of all three extraction backends (lines 121-128, 181-188
and 264-273 of `pdf_page_text.py`): a raised extraction error propagates;
an empty or whitespace-only raw result collapses to the empty string; any
other raw result is returned NFC-normalized. -/
def textAfterExtraction (nfc : String → String) (raw? : Option String) :
    Except PyErr String :=
  match raw? with
  | none => Except.error PyErr.extractionFailure
  | some raw =>
    if pyBlank raw then Except.ok ""
    else Except.ok (nfc raw)

/-- Embedding of `extract_page_text_pypdf` (lines 85-134): validates the
1-based page number against the page count, raising the range-reporting
ValueError outside `[1, totalPages]`, then extracts, collapses blank
results and normalizes. -/
def extract_page_text_pypdf (E : PdfEnv) (nfc : String → String)
    (page_number : Int) : Except PyErr String :=
  let total_pages : Int := E.totalPages
  let page_index : Int := page_number - 1
  if page_index < 0 ∨ total_pages ≤ page_index then
    Except.error (PyErr.outOfRange page_number 1 total_pages)
  else
    textAfterExtraction nfc (E.pypdfText page_index.toNat)

/-- Embedding of `extract_page_text_pdfminer` (lines 137-194): requires
pdfminer.six, rejects only `page_number < 1` (with an error reporting just
the requested value), then asks pdfminer for page index
`page_number - 1` — there is no upper-bound check; a page index beyond the
document simply yields whatever pdfminer returns for it (empty text). -/
def extract_page_text_pdfminer (E : PdfEnv) (nfc : String → String)
    (page_number : Int) : Except PyErr String :=
  if E.pdfminerAvailable = false then
    Except.error (PyErr.importError "pdfminer.six")
  else
    let page_index : Int := page_number - 1
    if page_number < 1 then
      Except.error (PyErr.pageMin page_number)
    else
      textAfterExtraction nfc (E.pdfminerText page_index.toNat)

/-- One run of `extract_page_text_ocr`, recording besides the result
whether `fitz.open` was reached (`docOpened`) and whether `doc.close()`
was executed before the function returned or raised (`docClosed`). -/
structure OcrRun where
  result : Except PyErr String
  docOpened : Bool
  docClosed : Bool

/-- Embedding of `extract_page_text_ocr` (lines 197-279) with resource
tracking: after the availability checks the document is opened; the
out-of-range path calls `doc.close()` explicitly before raising; the
success path calls `doc.close()` after OCR; but an exception raised by
`get_pixmap`, `Image.frombytes` or `pytesseract.image_to_string` reaches
the except block, which logs and re-raises without any close — there is no
try/finally in the source. -/
def extract_page_text_ocr_run (E : PdfEnv) (nfc : String → String)
    (page_number : Int) (lang : String := "jpn+eng") : OcrRun :=
  if E.pymupdfAvailable = false then
    ⟨Except.error (PyErr.importError "PyMuPDF"), false, false⟩
  else if E.pytesseractAvailable = false then
    ⟨Except.error (PyErr.importError "pytesseract"), false, false⟩
  else
    let total_pages : Int := E.totalPages
    let page_index : Int := page_number - 1
    if page_index < 0 ∨ total_pages ≤ page_index then
      ⟨Except.error (PyErr.outOfRange page_number 1 total_pages), true, true⟩
    else
      let zoom : ℚ := 150 / 72
      match E.getPixmap page_index.toNat (zoom, zoom) with
      | none => ⟨Except.error PyErr.extractionFailure, true, false⟩
      | some pix =>
        match E.frombytes pix with
        | none => ⟨Except.error PyErr.extractionFailure, true, false⟩
        | some img =>
          match E.imageToString img lang with
          | none => ⟨Except.error PyErr.extractionFailure, true, false⟩
          | some raw => ⟨textAfterExtraction nfc (some raw), true, true⟩

/-- Result of `extract_page_text_ocr` as seen by its caller. -/
def extract_page_text_ocr (E : PdfEnv) (nfc : String → String)
    (page_number : Int) (lang : String := "jpn+eng") : Except PyErr String :=
  (extract_page_text_ocr_run E nfc page_number lang).result

/-- The non-OCR dispatch of `extract_page_text` (lines 305-313): run the
requested text-layer backend, or raise the invalid-engine ValueError for
an unknown tag. -/
def textLayerAttempt (E : PdfEnv) (nfc : String → String)
    (page_number : Int) (engine : String) : Except PyErr String :=
  if engine = "pypdf" then extract_page_text_pypdf E nfc page_number
  else if engine = "pdfminer" then extract_page_text_pdfminer E nfc page_number
  else Except.error (PyErr.invalidEngine engine)

/-- Embedding of the orchestrator `extract_page_text` (lines 282-341):
`engine = "ocr"` dispatches to the OCR extractor exclusively; otherwise
the requested backend runs, and a blank result triggers the OCR fallback
when both OCR dependencies are available — an exception from the fallback
OCR attempt is caught and replaced by the empty string, and when the
dependencies are missing the blank text is returned as is. -/
def extract_page_text (E : PdfEnv) (nfc : String → String)
    (page_number : Int) (engine : String) : Except PyErr String :=
  if engine = "ocr" then extract_page_text_ocr E nfc page_number
  else
    match textLayerAttempt E nfc page_number engine with
    | Except.error e => Except.error e
    | Except.ok text =>
      if pyBlank text then
        if E.pymupdfAvailable && E.pytesseractAvailable then
          match extract_page_text_ocr E nfc page_number with
          | Except.ok t2 => Except.ok t2
          | Except.error _ => Except.ok ""
        else Except.ok text
      else Except.ok text

/-- A raster image as produced by `convert_pdf_to_images`: 1-based page
number and the pixel dimensions of the pixmap rendered for it. -/
structure RasterImage where
  page : Nat
  width : Nat
  height : Nat
  deriving DecidableEq

/-- Observable document-side behaviour of PyMuPDF for `pdf_to_image.py`:
a page count and, for each 0-based page and `Matrix(zx, zy)` scale pair,
the pixel dimensions of the pixmap `get_pixmap` renders. -/
structure RasterEnv where
  totalPages : Nat
  pixdims : Nat → ℚ × ℚ → Nat × Nat

/-- Page-range arithmetic of `convert_pdf_to_images` (lines 100-106):
a requested 1-based inclusive range `(s, e)` becomes the 0-based half-open
span `[max 0 (s-1), min totalPages e)`; no range means the whole
document. -/
def pageSpan (totalPages : Nat) (page_range : Option (Int × Int)) :
    Nat × Nat :=
  match page_range with
  | some (s, e) => ((max 0 (s - 1)).toNat, (min (totalPages : Int) e).toNat)
  | none => (0, totalPages)

/-- Embedding of `convert_pdf_to_images` (lines 67-144): for each page of
the span, in ascending order, render a pixmap at `Matrix(zoom, zoom)` with
`zoom = dpi / 72.0` and record its dimensions against the 1-based page
number `page_num + 1`. File naming and PNG/JPEG encoding are an encoding
concern on top of the raster data and are not modelled. -/
def convert_pdf_to_images (E : RasterEnv) (dpi : Int)
    (page_range : Option (Int × Int)) : List RasterImage :=
  let span := pageSpan E.totalPages page_range
  (List.range' span.1 (span.2 - span.1)).map fun page_num =>
    let zoom : ℚ := (dpi : ℚ) / 72
    let d := E.pixdims page_num (zoom, zoom)
    ⟨page_num + 1, d.1, d.2⟩

/-- DPI validation of `main` in `pdf_to_image.py` (lines 322-323): a
warning is emitted exactly when the DPI lies outside the recommended
window `[72, 600]`. The value itself is not modified. -/
def dpiWarn (dpi : Int) : Bool :=
  decide (dpi < 72 ∨ 600 < dpi)

/-- The page-range and DPI handling of `main` (lines 309-332): an explicit
range with `start < 1` or `end < start` is rejected (exit code 1,
modelled as `Except.error`); otherwise the DPI warning flag is computed
and `convert_pdf_to_images` is called with the DPI exactly as given. -/
def rasterMain (E : RasterEnv) (dpi : Int)
    (pages : Option (Int × Int)) : Except Unit (Bool × List RasterImage) :=
  match pages with
  | some (s, e) =>
    if s < 1 then Except.error ()
    else if e < s then Except.error ()
    else Except.ok (dpiWarn dpi, convert_pdf_to_images E dpi (some (s, e)))
  | none => Except.ok (dpiWarn dpi, convert_pdf_to_images E dpi none)

/-- PIL image handle: its mode string and an abstract content tag. -/
structure PILImage where
  mode : String
  content : Nat
  deriving DecidableEq

/-- Observable behaviour of Pillow for `images_to_pdf`: `openImg` is
`Image.open` on a path token (`none` models the call raising),
`convertRGB` is `img.convert("RGB")`, and `saveOk` tells whether the
`first_image.save(..., "PDF", save_all=True, append_images=...)` call
succeeds. -/
structure ImgEnv where
  openImg : Nat → Option PILImage
  convertRGB : PILImage → Option PILImage
  saveOk : Bool

/-- The loop of `images_to_pdf` over `image_paths[1:]` (lines 169-174):
open each image in order, convert it to RGB when its mode is not RGB, and
collect the results. On an exception the error carries how many images of
this suffix had already been opened successfully (those handles stay
open). -/
def openRestImages (E : ImgEnv) : List Nat → Except Nat (List PILImage)
  | [] => Except.ok []
  | p :: ps =>
    match E.openImg p with
    | none => Except.error 0
    | some img =>
      let conv : Option PILImage :=
        if img.mode = "RGB" then some img else E.convertRGB img
      match conv with
      | none => Except.error 1
      | some j =>
        match openRestImages E ps with
        | Except.error n => Except.error (n + 1)
        | Except.ok rest => Except.ok (j :: rest)

/-- One run of `images_to_pdf`, recording the result (the ordered pages of
the PDF that `save` wrote), whether the output file was written, how many
`Image.open` calls succeeded, and how many `close()` calls ran. -/
structure AssembleRun where
  result : Except PyErr (List PILImage)
  written : Bool
  openCalls : Nat
  closeCalls : Nat

/-- Embedding of `images_to_pdf` (lines 147-198) with resource tracking:
an empty path list raises the empty-input ValueError; otherwise the first
image is opened, the remaining images are opened and RGB-converted in
order, the first image is RGB-converted, and `save` embeds the pages as
`first :: rest` in input order. The `close()` loop (lines 190-192) runs
only after a successful save; any exception reaches the except block,
which logs and re-raises without closing anything. -/
def images_to_pdf_run (E : ImgEnv) (image_paths : List Nat) : AssembleRun :=
  match image_paths with
  | [] => ⟨Except.error PyErr.emptyInput, false, 0, 0⟩
  | p0 :: rest =>
    match E.openImg p0 with
    | none => ⟨Except.error PyErr.extractionFailure, false, 0, 0⟩
    | some f0 =>
      match openRestImages E rest with
      | Except.error n =>
        ⟨Except.error PyErr.extractionFailure, false, n + 1, 0⟩
      | Except.ok images =>
        let fconv : Option PILImage :=
          if f0.mode = "RGB" then some f0 else E.convertRGB f0
        match fconv with
        | none =>
          ⟨Except.error PyErr.extractionFailure, false, rest.length + 1, 0⟩
        | some f1 =>
          if E.saveOk then
            ⟨Except.ok (f1 :: images), true, rest.length + 1,
              images.length + 1⟩
          else
            ⟨Except.error PyErr.extractionFailure, false,
              rest.length + 1, 0⟩

/-- Result of `images_to_pdf` as seen by its caller: the ordered pages of
the assembled PDF, or the propagated error. -/
def images_to_pdf (E : ImgEnv) (image_paths : List Nat) :
    Except PyErr (List PILImage) :=
  (images_to_pdf_run E image_paths).result

/-- Concrete 3-page document environment used to evaluate the extraction
theorems: page 1 has an empty text layer for pypdf, the other pages carry
text, pdfminer sees no text anywhere, all optional dependencies are
present, and OCR recognizes the word hello on every page. -/
def Wpdf : PdfEnv where
  totalPages := 3
  pypdfText := fun n => if n = 0 then some "" else some "abc"
  pdfminerText := fun _ => some ""
  pdfminerAvailable := true
  pymupdfAvailable := true
  pytesseractAvailable := true
  getPixmap := fun _ _ => some ⟨10, 20, 0⟩
  frombytes := fun _ => some 0
  imageToString := fun _ _ => some "hello"

/-- The same document but with a page whose rasterization raises inside
`get_pixmap`. -/
def WpdfLeak : PdfEnv := { Wpdf with getPixmap := fun _ _ => none }

/-- Concrete 2-page document for the rasterization theorems; pixel
dimensions depend on the page only. -/
def Wr7 : RasterEnv where
  totalPages := 2
  pixdims := fun n _ => (n + 1, 5)

/-- Concrete 1-page document whose rendered width recovers the DPI from
the horizontal zoom component, exposing which DPI value was used. -/
def Wr8 : RasterEnv where
  totalPages := 1
  pixdims := fun _ z => ((z.1 * 72).num.toNat, 100)

/-- Images behind the concrete assembler environment: path 0 holds a
grayscale image, every other path an RGB one. -/
def WimgIo : Nat → PILImage :=
  fun n => if n = 0 then ⟨"L", 0⟩ else ⟨"RGB", n⟩

/-- RGB conversion in the concrete assembler environment: keeps the
content, sets the mode. -/
def WimgCv : PILImage → PILImage :=
  fun i => ⟨"RGB", i.content⟩

/-- Concrete assembler environment where every open, convert and save
succeeds. -/
def Wimg : ImgEnv where
  openImg := fun n => some (WimgIo n)
  convertRGB := fun i => some (WimgCv i)
  saveOk := true

/-- Assembler environment where opening any path other than 0 raises. -/
def WimgOpenFail : ImgEnv :=
  { Wimg with openImg := fun n => if n = 0 then some ⟨"RGB", 0⟩ else none }

/-- Assembler environment where the final save raises. -/
def WimgSaveFail : ImgEnv := { Wimg with saveOk := false }

/-- Every successful result of the shared extraction tail is either the
empty string or the NFC image of a non-blank raw extraction. -/
lemma textAfterExtraction_ok_shape {nfc : String → String}
    {raw? : Option String} {t : String}
    (h : textAfterExtraction nfc raw? = Except.ok t) :
    t = "" ∨ ∃ raw, pyBlank raw = false ∧ t = nfc raw := by
  cases raw? with
  | none => exact Except.noConfusion h
  | some raw =>
    simp only [textAfterExtraction] at h
    by_cases hb : pyBlank raw = true
    · rw [if_pos hb] at h
      injection h with h
      exact Or.inl h.symm
    · rw [if_neg hb] at h
      injection h with h
      exact Or.inr ⟨raw, Bool.eq_false_iff.mpr hb, h.symm⟩

/-- A string of that shape is a fixed point of `nfc`, provided `nfc` is
idempotent and fixes the empty string. -/
lemma shape_nfc_fixed {nfc : String → String} {t : String}
    (hid : ∀ s, nfc (nfc s) = nfc s) (hemp : nfc "" = "")
    (h : t = "" ∨ ∃ raw, pyBlank raw = false ∧ t = nfc raw) : nfc t = t := by
  rcases h with rfl | ⟨raw, _, rfl⟩
  · exact hemp
  · exact hid raw

/-- A blank string of that shape is the empty string, provided `nfc`
preserves blankness. -/
lemma shape_blank_empty {nfc : String → String} {t : String}
    (hbl : ∀ s, pyBlank (nfc s) = pyBlank s)
    (h : t = "" ∨ ∃ raw, pyBlank raw = false ∧ t = nfc raw)
    (hb : pyBlank t = true) : t = "" := by
  rcases h with rfl | ⟨raw, hraw, rfl⟩
  · rfl
  · rw [hbl raw, hraw] at hb
    exact absurd hb (by simp)

/-- Successful pypdf extractions have the collapsed-or-normalized shape. -/
lemma pypdf_ok_shape {E : PdfEnv} {nfc : String → String} {p : Int}
    {t : String} (h : extract_page_text_pypdf E nfc p = Except.ok t) :
    t = "" ∨ ∃ raw, pyBlank raw = false ∧ t = nfc raw := by
  simp only [extract_page_text_pypdf] at h
  split at h
  · exact Except.noConfusion h
  · exact textAfterExtraction_ok_shape h

/-- Successful pdfminer extractions have the collapsed-or-normalized
shape. -/
lemma pdfminer_ok_shape {E : PdfEnv} {nfc : String → String} {p : Int}
    {t : String} (h : extract_page_text_pdfminer E nfc p = Except.ok t) :
    t = "" ∨ ∃ raw, pyBlank raw = false ∧ t = nfc raw := by
  simp only [extract_page_text_pdfminer] at h
  split at h
  · exact Except.noConfusion h
  · split at h
    · exact Except.noConfusion h
    · exact textAfterExtraction_ok_shape h

/-- Successful OCR extractions have the collapsed-or-normalized shape. -/
lemma ocr_ok_shape {E : PdfEnv} {nfc : String → String} {p : Int}
    {lang : String} {t : String}
    (h : extract_page_text_ocr E nfc p lang = Except.ok t) :
    t = "" ∨ ∃ raw, pyBlank raw = false ∧ t = nfc raw := by
  simp only [extract_page_text_ocr, extract_page_text_ocr_run] at h
  split at h
  · exact Except.noConfusion h
  · split at h
    · exact Except.noConfusion h
    · split at h
      · exact Except.noConfusion h
      · split at h
        · exact Except.noConfusion h
        · split at h
          · exact Except.noConfusion h
          · split at h
            · exact Except.noConfusion h
            · dsimp only at h
              exact textAfterExtraction_ok_shape h

/-- Successful text-layer dispatch results have the
collapsed-or-normalized shape. -/
lemma textLayerAttempt_ok_shape {E : PdfEnv} {nfc : String → String}
    {p : Int} {engine : String} {t : String}
    (h : textLayerAttempt E nfc p engine = Except.ok t) :
    t = "" ∨ ∃ raw, pyBlank raw = false ∧ t = nfc raw := by
  simp only [textLayerAttempt] at h
  split at h
  · exact pypdf_ok_shape h
  · split at h
    · exact pdfminer_ok_shape h
    · exact Except.noConfusion h

/-- Successful orchestrator results have the collapsed-or-normalized
shape. -/
lemma extract_ok_shape {E : PdfEnv} {nfc : String → String} {p : Int}
    {engine : String} {t : String}
    (h : extract_page_text E nfc p engine = Except.ok t) :
    t = "" ∨ ∃ raw, pyBlank raw = false ∧ t = nfc raw := by
  simp only [extract_page_text] at h
  split at h
  · exact ocr_ok_shape h
  · split at h
    · exact Except.noConfusion h
    · rename_i text heq
      split at h
      · split at h
        · split at h
          · rename_i t2 hocr
            injection h with h
            exact h ▸ ocr_ok_shape hocr
          · injection h with h
            exact Or.inl h.symm
        · injection h with h
          exact h ▸ textLayerAttempt_ok_shape heq
      · injection h with h
        exact h ▸ textLayerAttempt_ok_shape heq

/-- C3: for every document, page, language and engine tag, the text
returned by the pypdf backend, the pdfminer backend, the OCR backend or
the orchestrator is in NFC form: normalizing the result again yields the
same string, including when the result is the empty string. The
normalization function is assumed idempotent and to fix the empty string,
as Unicode NFC is. -/
theorem extract_text_nfc_normalized (E : PdfEnv) (nfc : String → String)
    (hid : ∀ s, nfc (nfc s) = nfc s) (hemp : nfc "" = "")
    (p : Int) (lang engine : String) :
    (∀ t, extract_page_text_pypdf E nfc p = Except.ok t → nfc t = t) ∧
    (∀ t, extract_page_text_pdfminer E nfc p = Except.ok t → nfc t = t) ∧
    (∀ t, extract_page_text_ocr E nfc p lang = Except.ok t → nfc t = t) ∧
    (∀ t, extract_page_text E nfc p engine = Except.ok t → nfc t = t) :=
  ⟨fun _ h => shape_nfc_fixed hid hemp (pypdf_ok_shape h),
   fun _ h => shape_nfc_fixed hid hemp (pdfminer_ok_shape h),
   fun _ h => shape_nfc_fixed hid hemp (ocr_ok_shape h),
   fun _ h => shape_nfc_fixed hid hemp (extract_ok_shape h)⟩

/-- Witness for C3: on the concrete document, page 2 via pypdf returns a
non-empty string and renormalizing it changes nothing. -/
theorem extract_text_nfc_normalized_witness :
    extract_page_text_pypdf Wpdf id 2 = Except.ok "abc" ∧ id "abc" = "abc" :=
  ⟨rfl,
   (extract_text_nfc_normalized Wpdf id (fun _ => rfl) rfl 2 "jpn+eng"
     "pypdf").1 "abc" rfl⟩

/-- C10: a successful orchestrator result, for any engine and any page,
is either exactly the empty string or contains at least one
non-whitespace character; a whitespace-only non-empty string is never
returned. The normalization function is assumed to preserve blankness, as
Unicode NFC does. -/
theorem extract_text_no_blank_nonempty (E : PdfEnv) (nfc : String → String)
    (hbl : ∀ s, pyBlank (nfc s) = pyBlank s) (p : Int) (engine t : String)
    (h : extract_page_text E nfc p engine = Except.ok t) :
    t = "" ∨ pyBlank t = false := by
  rcases extract_ok_shape h with rfl | ⟨raw, hraw, rfl⟩
  · exact Or.inl rfl
  · exact Or.inr ((hbl raw).trans hraw)

/-- Witness for C10: the concrete fallback run returns a word with
non-whitespace characters. -/
theorem extract_text_no_blank_nonempty_witness :
    extract_page_text Wpdf id 1 "pypdf" = Except.ok "hello" ∧
      ("hello" = "" ∨ pyBlank "hello" = false) :=
  ⟨rfl,
   extract_text_no_blank_nonempty Wpdf id (fun _ => rfl) 1 "pypdf" "hello"
     rfl⟩

/-- C1: when a non-OCR engine is requested, its extraction succeeds with
an empty or whitespace-only result, and both OCR dependencies are
available, the orchestrator escalates to OCR: that first result is in
fact the empty string; a successful OCR result becomes the final result;
an OCR exception is swallowed and the original (empty) text of the first
attempt is returned instead; and in every case the orchestrator returns
successfully, never propagating the OCR error to the caller. -/
theorem ocr_fallback_degrades (E : PdfEnv) (nfc : String → String)
    (hbl : ∀ s, pyBlank (nfc s) = pyBlank s) (p : Int) (engine : String)
    (heng : engine = "pypdf" ∨ engine = "pdfminer") (t : String)
    (hfirst : textLayerAttempt E nfc p engine = Except.ok t)
    (ht : pyBlank t = true)
    (hmu : E.pymupdfAvailable = true) (hts : E.pytesseractAvailable = true) :
    t = "" ∧
    (∀ u, extract_page_text_ocr E nfc p = Except.ok u →
      extract_page_text E nfc p engine = Except.ok u) ∧
    (∀ e, extract_page_text_ocr E nfc p = Except.error e →
      extract_page_text E nfc p engine = Except.ok t) ∧
    (∃ u, extract_page_text E nfc p engine = Except.ok u) := by
  have hne : engine ≠ "ocr" := by
    rcases heng with rfl | rfl <;> decide
  have ht0 : t = "" :=
    shape_blank_empty hbl (textLayerAttempt_ok_shape hfirst) ht
  have hun : extract_page_text E nfc p engine =
      match extract_page_text_ocr E nfc p with
      | Except.ok t2 => Except.ok t2
      | Except.error _ => Except.ok "" := by
    unfold extract_page_text
    rw [if_neg hne, hfirst]
    simp only [ht, if_true, hmu, hts, Bool.and_self]
  refine ⟨ht0, ?_, ?_, ?_⟩
  · intro u hocr
    rw [hun, hocr]
  · intro e hocr
    rw [hun, hocr, ht0]
  · cases hocr : extract_page_text_ocr E nfc p with
    | ok u => exact ⟨u, by rw [hun, hocr]⟩
    | error e => exact ⟨"", by rw [hun, hocr]⟩

/-- Witness for C1: on the concrete document, pypdf finds nothing on
page 1 and the OCR escalation result becomes the final result. -/
theorem ocr_fallback_degrades_witness :
    extract_page_text Wpdf id 1 "pypdf" = Except.ok "hello" := by
  have h := ocr_fallback_degrades Wpdf id (fun _ => rfl) 1 "pypdf"
    (Or.inl rfl) "" rfl rfl rfl rfl
  exact h.2.1 "hello" rfl

/-- C5: engine dispatch of the orchestrator: the ocr tag runs the OCR
extractor exclusively and terminally — the orchestrator result, errors
included, is exactly the OCR extractor result, so no fallback logic
applies and OCR errors propagate; an engine tag other than the three
known ones fails with the invalid-engine error before attempting any
extraction — the result is the same for every document environment. -/
theorem engine_dispatch (E F : PdfEnv) (nfc : String → String) (p : Int)
    (engine : String) :
    extract_page_text E nfc p "ocr" = extract_page_text_ocr E nfc p ∧
    (engine ≠ "pypdf" → engine ≠ "pdfminer" → engine ≠ "ocr" →
      extract_page_text E nfc p engine =
        Except.error (PyErr.invalidEngine engine) ∧
      extract_page_text E nfc p engine =
        extract_page_text F nfc p engine) := by
  constructor
  · unfold extract_page_text
    rw [if_pos rfl]
  · intro h1 h2 h3
    have hagree : ∀ G : PdfEnv, extract_page_text G nfc p engine =
        Except.error (PyErr.invalidEngine engine) := by
      intro G
      unfold extract_page_text textLayerAttempt
      rw [if_neg h3, if_neg h1, if_neg h2]
    exact ⟨hagree E, (hagree E).trans (hagree F).symm⟩

/-- Witness for C5: the unknown tag tesseract yields the invalid-engine
error, identically on two different documents. -/
theorem engine_dispatch_witness :
    extract_page_text Wpdf id 1 "tesseract" =
      Except.error (PyErr.invalidEngine "tesseract") ∧
    extract_page_text Wpdf id 1 "tesseract" =
      extract_page_text WpdfLeak id 1 "tesseract" := by
  have h := engine_dispatch Wpdf WpdfLeak id 1 "tesseract"
  exact h.2 (by decide) (by decide) (by decide)

/-- The shared extraction tail never produces the range-reporting
ValueError: it returns text or the wrapped extraction failure. -/
lemma textAfterExtraction_not_outOfRange (nfc : String → String)
    (o : Option String) (a lo hi : Int) :
    textAfterExtraction nfc o ≠ Except.error (PyErr.outOfRange a lo hi) := by
  cases o with
  | none =>
    intro h
    injection h with h
    exact PyErr.noConfusion h
  | some raw =>
    simp only [textAfterExtraction]
    split <;> intro h <;> exact Except.noConfusion h

/-- C2 counterexample: the pdfminer backend does not reject a page number
beyond the document: on a 3-page document, requesting page 4 does not
fail with the out-of-range error — the extraction proceeds and returns
the empty string pdfminer produces for an absent page. -/
theorem pdfminer_upper_bound_counterexample :
    Wpdf.totalPages = 3 ∧
    extract_page_text_pdfminer Wpdf id 4 = Except.ok "" :=
  ⟨rfl, rfl⟩

/-- C2 amended: the pypdf backend and the OCR backend (when its
dependencies are present) reject exactly the pages outside
`[1, totalPages]` with an error reporting both the requested value and
the valid range, and accept every in-range page, proceeding to
extraction; the pdfminer backend checks only the lower bound: `p < 1` is
rejected with an error reporting only the requested value, while every
`p ≥ 1` — including `p > totalPages` — is accepted and proceeds to
extraction. -/
theorem page_bounds_check (E : PdfEnv) (nfc : String → String) (p : Int)
    (lang : String) :
    ((p < 1 ∨ (E.totalPages : Int) < p) →
      extract_page_text_pypdf E nfc p =
        Except.error (PyErr.outOfRange p 1 E.totalPages)) ∧
    (1 ≤ p → p ≤ (E.totalPages : Int) →
      extract_page_text_pypdf E nfc p =
        textAfterExtraction nfc (E.pypdfText (p - 1).toNat)) ∧
    (E.pymupdfAvailable = true → E.pytesseractAvailable = true →
      ((p < 1 ∨ (E.totalPages : Int) < p) →
        extract_page_text_ocr E nfc p lang =
          Except.error (PyErr.outOfRange p 1 E.totalPages)) ∧
      (1 ≤ p → p ≤ (E.totalPages : Int) →
        ∀ a lo hi, extract_page_text_ocr E nfc p lang ≠
          Except.error (PyErr.outOfRange a lo hi))) ∧
    (E.pdfminerAvailable = true →
      (p < 1 →
        extract_page_text_pdfminer E nfc p =
          Except.error (PyErr.pageMin p)) ∧
      (1 ≤ p →
        extract_page_text_pdfminer E nfc p =
          textAfterExtraction nfc (E.pdfminerText (p - 1).toNat))) := by
  refine ⟨?_, ?_, ?_, ?_⟩
  · intro hp
    simp only [extract_page_text_pypdf]
    rw [if_pos (by omega)]
  · intro hp1 hp2
    simp only [extract_page_text_pypdf]
    rw [if_neg (by omega)]
  · intro hmu hts
    constructor
    · intro hp
      simp only [extract_page_text_ocr, extract_page_text_ocr_run]
      rw [if_neg (by simp [hmu]), if_neg (by simp [hts]),
        if_pos (by omega)]
    · intro hp1 hp2 a lo hi
      simp only [extract_page_text_ocr, extract_page_text_ocr_run]
      rw [if_neg (by simp [hmu]), if_neg (by simp [hts]),
        if_neg (by omega)]
      split
      · intro h
        injection h with h
        exact PyErr.noConfusion h
      · split
        · intro h
          injection h with h
          exact PyErr.noConfusion h
        · split
          · intro h
            injection h with h
            exact PyErr.noConfusion h
          · dsimp only
            exact textAfterExtraction_not_outOfRange nfc _ a lo hi
  · intro hpm
    constructor
    · intro hp
      simp only [extract_page_text_pdfminer]
      rw [if_neg (by simp [hpm]), if_pos hp]
    · intro hp
      simp only [extract_page_text_pdfminer]
      rw [if_neg (by simp [hpm]), if_neg (by omega)]

/-- Witness for the amended C2: page 5 of the 3-page document is rejected
by pypdf with the error carrying the value 5 and the range 1-3, page 0 is
rejected by pdfminer with the error carrying only the value 0, and OCR
rejects page 5 with the range-reporting error. -/
theorem page_bounds_check_witness :
    extract_page_text_pypdf Wpdf id 5 =
      Except.error (PyErr.outOfRange 5 1 3) ∧
    extract_page_text_pdfminer Wpdf id 0 =
      Except.error (PyErr.pageMin 0) ∧
    extract_page_text_ocr Wpdf id 5 =
      Except.error (PyErr.outOfRange 5 1 3) := by
  refine ⟨(page_bounds_check Wpdf id 5 "jpn+eng").1 (by decide),
    ((page_bounds_check Wpdf id 0 "jpn+eng").2.2.2 rfl).1 (by decide),
    ((page_bounds_check Wpdf id 5 "jpn+eng").2.2.1 rfl rfl).1 (by decide)⟩

/-- C4: resource discipline of the OCR extractor, evaluated on concrete
runs: the document handle is closed on the normal path and on the
out-of-range path, but when `get_pixmap` raises, the except block
re-raises without closing — the handle opened by `fitz.open` is never
released on that exit path, contrary to the released-on-every-exit-path
claim. -/
theorem ocr_doc_leak_on_render_error :
    (extract_page_text_ocr_run Wpdf id 1).docClosed = true ∧
    (extract_page_text_ocr_run Wpdf id 9).docClosed = true ∧
    (extract_page_text_ocr_run WpdfLeak id 1).docOpened = true ∧
    (extract_page_text_ocr_run WpdfLeak id 1).docClosed = false ∧
    (extract_page_text_ocr_run WpdfLeak id 1).result =
      Except.error PyErr.extractionFailure :=
  ⟨rfl, rfl, rfl, rfl, rfl⟩

/-- When every open and every RGB conversion succeeds, the assembler loop
collects the opened-and-converted images in input order. -/
lemma openRestImages_total (E : ImgEnv) (io : Nat → PILImage)
    (cv : PILImage → PILImage)
    (hopen : ∀ q, E.openImg q = some (io q))
    (hconv : ∀ i, E.convertRGB i = some (cv i)) :
    ∀ ps : List Nat, openRestImages E ps =
      Except.ok (ps.map fun q =>
        if (io q).mode = "RGB" then io q else cv (io q)) := by
  intro ps
  induction ps with
  | nil => rfl
  | cons q ps ih =>
    simp only [openRestImages, hopen q, List.map_cons]
    by_cases hm : (io q).mode = "RGB"
    · rw [if_pos hm, if_pos hm]
      simp only [ih]
    · rw [if_neg hm, if_neg hm, hconv (io q)]
      simp only [ih]

/-- C6: assembling an empty sequence fails with the empty-input error and
writes nothing; assembling a non-empty sequence, in an environment where
every open, conversion and the save succeed, produces a PDF whose page
sequence equals the input sequence in order, where each input is its
opened image if already RGB and its RGB conversion otherwise — so every
embedded page is in RGB mode, given that conversion yields RGB mode as
Pillow guarantees. -/
theorem assemble_empty_and_order (E : ImgEnv) (io : Nat → PILImage)
    (cv : PILImage → PILImage)
    (hopen : ∀ q, E.openImg q = some (io q))
    (hconv : ∀ i, E.convertRGB i = some (cv i))
    (hmode : ∀ i, (cv i).mode = "RGB")
    (hsave : E.saveOk = true) (ps : List Nat) :
    (images_to_pdf E [] = Except.error PyErr.emptyInput ∧
      (images_to_pdf_run E []).written = false) ∧
    (ps ≠ [] →
      images_to_pdf E ps =
        Except.ok (ps.map fun q =>
          if (io q).mode = "RGB" then io q else cv (io q)) ∧
      ∀ pg ∈ ps.map (fun q =>
          if (io q).mode = "RGB" then io q else cv (io q)),
        pg.mode = "RGB") := by
  refine ⟨⟨rfl, rfl⟩, ?_⟩
  intro hne
  constructor
  · match ps with
    | [] => exact absurd rfl hne
    | q :: rest =>
      simp only [images_to_pdf, images_to_pdf_run, hopen q,
        openRestImages_total E io cv hopen hconv rest, hsave,
        List.map_cons, if_true]
      by_cases hm : (io q).mode = "RGB"
      · rw [if_pos hm, if_pos hm]
      · rw [if_neg hm, if_neg hm, hconv (io q)]
  · intro pg hmem
    rcases List.mem_map.mp hmem with ⟨q, _, rfl⟩
    by_cases hm : (io q).mode = "RGB"
    · rw [if_pos hm]
      exact hm
    · rw [if_neg hm]
      exact hmode (io q)

/-- Witness for C6: two concrete images, the first grayscale, assemble
into a two-page PDF in input order with both pages RGB, and the empty
list is rejected. -/
theorem assemble_empty_and_order_witness :
    images_to_pdf Wimg [] = Except.error PyErr.emptyInput ∧
    images_to_pdf Wimg [0, 1] =
      Except.ok [⟨"RGB", 0⟩, ⟨"RGB", 1⟩] := by
  have h := assemble_empty_and_order Wimg WimgIo WimgCv (fun _ => rfl)
    (fun _ => rfl) (fun _ => rfl) rfl [0, 1]
  refine ⟨h.1.1, ?_⟩
  rw [(h.2 (by decide)).1]
  rfl

/-- C9: resource discipline of the assembler, evaluated on concrete runs:
after a fully successful run every opened image is closed, but when
opening the second image raises, or when the save raises, the except
block re-raises without closing anything — handles stay open on those
exit paths, contrary to the released-on-every-exit-path claim. -/
theorem assembler_leak_on_error :
    (images_to_pdf_run Wimg [0, 1]).openCalls = 2 ∧
    (images_to_pdf_run Wimg [0, 1]).closeCalls = 2 ∧
    (images_to_pdf_run WimgOpenFail [0, 5]).openCalls = 1 ∧
    (images_to_pdf_run WimgOpenFail [0, 5]).closeCalls = 0 ∧
    (images_to_pdf_run WimgOpenFail [0, 5]).result =
      Except.error PyErr.extractionFailure ∧
    (images_to_pdf_run WimgSaveFail [0, 1]).openCalls = 2 ∧
    (images_to_pdf_run WimgSaveFail [0, 1]).closeCalls = 0 ∧
    (images_to_pdf_run WimgSaveFail [0, 1]).result =
      Except.error PyErr.extractionFailure :=
  ⟨rfl, rfl, rfl, rfl, rfl, rfl, rfl, rfl⟩

/-- C7: rasterization is deterministic and ordered: the output has one
image per page of the span; the image at position i is page
`span.1 + i + 1` with exactly the pixel dimensions `get_pixmap` yields
for that page at the uniform matrix `(dpi/72, dpi/72)` — the dimensions
are a function of the document, page and DPI alone, so two invocations
with the same arguments agree; and the 1-based page numbers are strictly
ascending. -/
theorem rasterize_deterministic (E : RasterEnv) (dpi : Int)
    (r : Option (Int × Int)) :
    (convert_pdf_to_images E dpi r).length =
      (pageSpan E.totalPages r).2 - (pageSpan E.totalPages r).1 ∧
    (∀ i, (h : i < (convert_pdf_to_images E dpi r).length) →
      (convert_pdf_to_images E dpi r).get ⟨i, h⟩ =
        ⟨(pageSpan E.totalPages r).1 + i + 1,
          (E.pixdims ((pageSpan E.totalPages r).1 + i)
            ((dpi : ℚ) / 72, (dpi : ℚ) / 72)).1,
          (E.pixdims ((pageSpan E.totalPages r).1 + i)
            ((dpi : ℚ) / 72, (dpi : ℚ) / 72)).2⟩) ∧
    (∀ i j, (hi : i < (convert_pdf_to_images E dpi r).length) →
      (hj : j < (convert_pdf_to_images E dpi r).length) → i < j →
      ((convert_pdf_to_images E dpi r).get ⟨i, hi⟩).page <
        ((convert_pdf_to_images E dpi r).get ⟨j, hj⟩).page) := by
  have hlen : (convert_pdf_to_images E dpi r).length =
      (pageSpan E.totalPages r).2 - (pageSpan E.totalPages r).1 := by
    simp [convert_pdf_to_images]
  have hget : ∀ i, (h : i < (convert_pdf_to_images E dpi r).length) →
      (convert_pdf_to_images E dpi r).get ⟨i, h⟩ =
        ⟨(pageSpan E.totalPages r).1 + i + 1,
          (E.pixdims ((pageSpan E.totalPages r).1 + i)
            ((dpi : ℚ) / 72, (dpi : ℚ) / 72)).1,
          (E.pixdims ((pageSpan E.totalPages r).1 + i)
            ((dpi : ℚ) / 72, (dpi : ℚ) / 72)).2⟩ := by
    intro i h
    have hi : i < (pageSpan E.totalPages r).2 -
        (pageSpan E.totalPages r).1 := hlen ▸ h
    simp [convert_pdf_to_images, List.get_eq_getElem, List.getElem_map,
      List.getElem_range']
  refine ⟨hlen, hget, ?_⟩
  intro i j hi hj hij
  rw [hget i hi, hget j hj]
  simp only []
  omega

/-- Witness for C7: on the concrete 2-page document at 150 DPI, the
output has two images and position 0 holds page 1 at its rendered
dimensions. -/
theorem rasterize_deterministic_witness :
    (convert_pdf_to_images Wr7 150 none).length = 2 ∧
    (convert_pdf_to_images Wr7 150 none).get? 0 = some ⟨1, 1, 5⟩ := by
  have h := rasterize_deterministic Wr7 150 none
  have hb : 0 < (convert_pdf_to_images Wr7 150 none).length := by
    rw [h.1]
    decide
  refine ⟨h.1, ?_⟩
  rw [List.get?_eq_get hb, h.2.1 0 hb]
  rfl

/-- C8 counterexample: at DPI 1000 the rasterization command warns but
renders with the requested value, not with a value clamped to [72, 600]:
on the probe document, whose rendered width recovers the DPI from the
zoom, the output at DPI 1000 differs from the output at the clamped DPI
600. -/
theorem dpi_clamp_counterexample :
    rasterMain Wr8 1000 none =
      Except.ok (true, convert_pdf_to_images Wr8 1000 none) ∧
    convert_pdf_to_images Wr8 1000 none = [⟨1, 1000, 100⟩] ∧
    convert_pdf_to_images Wr8 600 none = [⟨1, 600, 100⟩] ∧
    convert_pdf_to_images Wr8 1000 none ≠
      convert_pdf_to_images Wr8 600 none := by
  have e1 : convert_pdf_to_images Wr8 1000 none = [⟨1, 1000, 100⟩] := by
    have h0 : ((1000 : Int) : ℚ) / 72 * 72 = 1000 := by norm_num
    simp [convert_pdf_to_images, Wr8, pageSpan, List.range', h0]
  have e2 : convert_pdf_to_images Wr8 600 none = [⟨1, 600, 100⟩] := by
    have h0 : ((600 : Int) : ℚ) / 72 * 72 = 600 := by norm_num
    simp [convert_pdf_to_images, Wr8, pageSpan, List.range', h0]
  refine ⟨rfl, e1, e2, ?_⟩
  rw [e1, e2]
  decide

/-- C8 amended: DPI outside the recommended window [72, 600] triggers the
non-fatal warning and DPI inside it does not; in both cases the command
proceeds, without error, to render with the requested DPI unchanged
(scale factor dpi/72) — the value is not clamped. -/
theorem dpi_warn_not_clamp (E : RasterEnv) (dpi : Int) :
    ((dpi < 72 ∨ 600 < dpi) → dpiWarn dpi = true) ∧
    (72 ≤ dpi → dpi ≤ 600 → dpiWarn dpi = false) ∧
    rasterMain E dpi none =
      Except.ok (dpiWarn dpi, convert_pdf_to_images E dpi none) := by
  refine ⟨fun h => decide_eq_true h, fun h1 h2 => ?_, rfl⟩
  exact decide_eq_false (by omega)

/-- Witness for the amended C8: DPI 1000 warns, DPI 150 does not, and
both render. -/
theorem dpi_warn_not_clamp_witness :
    dpiWarn 1000 = true ∧ dpiWarn 150 = false ∧
    rasterMain Wr8 150 none =
      Except.ok (dpiWarn 150, convert_pdf_to_images Wr8 150 none) := by
  refine ⟨(dpi_warn_not_clamp Wr8 1000).1 (by omega),
    (dpi_warn_not_clamp Wr8 150).2.1 (by omega) (by omega),
    (dpi_warn_not_clamp Wr8 150).2.2⟩
